import Mathlib

/-!
Shallow embedding of the tesmart-commands client driver (Go).

The repository holds three near-duplicate variants of the same package.
The named file `tesmart-commands.go` is taken as primary; where a claim
cites a symbol from the unnamed variant `src/unnamed/part_000` (its
exported `ExtractInput`, which adds a length check), that variant is
embedded under the namespace `P0`.

Modelling conventions:
* Go `byte` values are `Nat`s; wrap-around of the `byte(int)` conversion
  and of byte subtraction is made explicit with `% 256`.
* Go byte slices are `List Nat`; `copy(dst, src)` copies
  `min dst.length src.length` elements, embedded as `goCopy`.
* Indexing uses `List.getD _ _ 0`: the read loop only ever hands 6-byte
  buffers to the decoder, and every concrete frame considered below has
  length ≥ 6, where `getD` agrees with Go indexing exactly.
* The socket, channels and goroutines are embedded as explicit state
  (`SwitchState`) and event traces (`SendEvent`): the `sw` channel has
  capacity 1, so its contents are a `Bool`; the `responses`/`Responses`
  channels are queues.
-/

namespace Tesmart

/-- The command templates, from the `var` block of `tesmart-commands.go`. -/
def SWITCH_INPUT : List Nat := [0xAA, 0xBB, 0x03, 0x01, 0x00, 0xEE]

def SET_LED_TIMEOUT : List Nat := [0xAA, 0xBB, 0x03, 0x03, 0x00, 0xEE]

def MUTE_BUZZER : List Nat := [0xAA, 0xBB, 0x03, 0x02, 0x00, 0xEE]

def UNMUTE_BUZZER : List Nat := [0xAA, 0xBB, 0x03, 0x02, 0x01, 0xEE]

def ENABLE_AUTO_INPUT_DETECTION : List Nat := [0xAA, 0xBB, 0x03, 0x81, 0x01, 0xEE]

def DISABLE_AUTO_INPUT_DETECTION : List Nat := [0xAA, 0xBB, 0x03, 0x81, 0x00, 0xEE]

def GET_CURRENT_INPUT : List Nat := [0xAA, 0xBB, 0x03, 0x10, 0x00, 0xEE]

/-- The 4-byte status-response template (`OUTPUT`). -/
def OUTPUT : List Nat := [0xAA, 0xBB, 0x03, 0x11]

/-- Go `byte(n)` for `n : int`: keep the low 8 bits of the two's-complement
representation, which is `n mod 256` (Euclidean, hence `Int.emod`). -/
def goByte (n : Int) : Nat := (n % 256).toNat

/-- Go `make([]byte, n)`: a zeroed buffer of length `n`. -/
def makeBytes (n : Nat) : List Nat := List.replicate n 0

/-- Go `copy(dst, src)`: overwrite the first `min dst.length src.length`
entries of `dst` with those of `src`, keep the rest of `dst`. -/
def goCopy (dst src : List Nat) : List Nat :=
  src.take dst.length ++ dst.drop src.length

/-- Go byte subtraction `a - b` on `uint8`, wrapping mod 256.  For
`a b < 256` this is the usual two's-complement difference. -/
def byteSub (a b : Nat) : Nat := (a % 256 + (256 - b % 256)) % 256

/-- `injectInputToPayload` (`tesmart-commands.go:173-178`): allocate a fresh
6-byte buffer, copy the template into it, overwrite index 4 with `input`. -/
def injectInputToPayload (payload : List Nat) (input : Nat) : List Nat :=
  (goCopy (makeBytes 6) payload).set 4 input

/-- `isValidOutput` (`tesmart-commands.go:187-195`): marker bytes
`AA BB 03 11` and the wrapping checksum relation `output[5]-output[4] == 0x16`.
No length check in this variant. -/
def isValidOutput (output : List Nat) : Bool :=
  output.getD 0 0 == 0xAA &&
  output.getD 1 0 == 0xBB &&
  output.getD 2 0 == 0x03 &&
  output.getD 3 0 == 0x11 &&
  byteSub (output.getD 5 0) (output.getD 4 0) == 0x16

/-- `extractInput` (`tesmart-commands.go:180-185`): on a valid frame return
`int(response[4]) + 1` (the wire value is zero-based), else the
`"invalid response"` error. -/
def extractInput (response : List Nat) : Except String Nat :=
  if isValidOutput response then Except.ok (response.getD 4 0 + 1)
  else Except.error "invalid response"

/-- `SwitchInput` (`tesmart-commands.go:59-67`), up to the point the command
frame is handed to `send`: the validation guard is embedded verbatim
(`input < 1 && input > 16`), then the frame is built from `SWITCH_INPUT`
with `byte(input)` at index 4.  The I/O and response decoding are embedded
separately (`send`, `dispatchFrame`, `extractInput`). -/
def SwitchInput (input : Int) : Except String (List Nat) :=
  if input < 1 ∧ input > 16 then Except.error "invalid input value"
  else Except.ok (injectInputToPayload SWITCH_INPUT (goByte input))

/-- `SetLedTimeout` (`tesmart-commands.go:69-77`), up to the point the frame
is handed to `send`.  The guard is embedded verbatim
(`input < 0 && input > 30`); note the source injects into the
`GET_CURRENT_INPUT` template, not `SET_LED_TIMEOUT`. -/
def SetLedTimeout (input : Int) : Except String (List Nat) :=
  if input < 0 ∧ input > 30 then Except.error "invalid LED timeout value"
  else Except.ok (injectInputToPayload GET_CURRENT_INPUT (goByte input))

namespace P0

/-- `isValidOutput` of the unnamed variant (`src/unnamed/part_000:216-225`):
same checks plus `len(output) == 6`. -/
def isValidOutput (output : List Nat) : Bool :=
  output.length == 6 &&
  output.getD 0 0 == 0xAA &&
  output.getD 1 0 == 0xBB &&
  output.getD 2 0 == 0x03 &&
  output.getD 3 0 == 0x11 &&
  byteSub (output.getD 5 0) (output.getD 4 0) == 0x16

/-- `ExtractInput` (`src/unnamed/part_000:209-214`). -/
def ExtractInput (response : List Nat) : Except String Nat :=
  if isValidOutput response then Except.ok (response.getD 4 0 + 1)
  else Except.error "invalid response"

end P0

/-- The frame built from a 6-byte template is the template with index 4
overwritten. -/
theorem injectInputToPayload_switch (b : Nat) :
    injectInputToPayload SWITCH_INPUT b = [0xAA, 0xBB, 0x03, 0x01, b, 0xEE] := rfl

theorem injectInputToPayload_getCurrent (b : Nat) :
    injectInputToPayload GET_CURRENT_INPUT b = [0xAA, 0xBB, 0x03, 0x10, b, 0xEE] := rfl

/-- C1 counterexample: `SwitchInput 3` builds the frame with byte 3 at
index 4 — the input value itself, not the zero-based index 2 the claim
requires. -/
theorem C1_counterexample :
    SwitchInput 3 = Except.ok [0xAA, 0xBB, 0x03, 0x01, 0x03, 0xEE] ∧
    SwitchInput 3 ≠ Except.ok [0xAA, 0xBB, 0x03, 0x01, 0x02, 0xEE] := by
  refine ⟨rfl, fun h => ?_⟩
  rw [show SwitchInput 3 = Except.ok [0xAA, 0xBB, 0x03, 0x01, 0x03, 0xEE] from rfl] at h
  exact absurd (Except.ok.inj h) (by decide)

/-- C1 (amended): for every `n` with `1 ≤ n ≤ 16`, `SwitchInput n` builds
and transmits `AA BB 03 01 b EE` where `b` is the input value `n` itself
(the source applies no `-1`); in particular `SwitchInput 3` transmits
`AA BB 03 01 03 EE`. -/
theorem C1_switchInput_frame (n : Int) (h1 : 1 ≤ n) (h2 : n ≤ 16) :
    SwitchInput n = Except.ok [0xAA, 0xBB, 0x03, 0x01, n.toNat, 0xEE] := by
  have hg : ¬ (n < 1 ∧ n > 16) := by omega
  have hb : goByte n = n.toNat := by
    unfold goByte
    congr 1
    omega
  rw [SwitchInput, if_neg hg, hb, injectInputToPayload_switch]

/-- C1 witness: the amended statement at `n = 3`. -/
theorem C1_witness :
    SwitchInput 3 = Except.ok [0xAA, 0xBB, 0x03, 0x01, Int.toNat 3, 0xEE] :=
  C1_switchInput_frame 3 (by decide) (by decide)

/-- C2 (code bug): the guard `input < 1 && input > 16` is unsatisfiable, so
`SwitchInput` never returns the validation error: at the claim's rejected
inputs 0, 17 and -1 it builds and sends a frame instead (with the byte
conversion wrapping -1 to 0xFF). -/
theorem C2_validation_never_rejects :
    SwitchInput 0 = Except.ok [0xAA, 0xBB, 0x03, 0x01, 0x00, 0xEE] ∧
    SwitchInput 17 = Except.ok [0xAA, 0xBB, 0x03, 0x01, 0x11, 0xEE] ∧
    SwitchInput (-1) = Except.ok [0xAA, 0xBB, 0x03, 0x01, 0xFF, 0xEE] ∧
    (∀ n : Int, SwitchInput n ≠ Except.error "invalid input value") := by
  refine ⟨rfl, rfl, rfl, ?_⟩
  intro n
  have hg : ¬ (n < 1 ∧ n > 16) := by omega
  rw [SwitchInput, if_neg hg]
  exact fun h => Except.noConfusion h

section DecodeCharacterization

/-- The main-file validator, spelled as a proposition: marker, opcode and
checksum checks, no length check. -/
theorem isValidOutput_iff (f : List Nat) :
    isValidOutput f = true ↔
      (f.getD 0 0 = 0xAA ∧ f.getD 1 0 = 0xBB ∧ f.getD 2 0 = 0x03 ∧
       f.getD 3 0 = 0x11 ∧ byteSub (f.getD 5 0) (f.getD 4 0) = 0x16) := by
  simp [isValidOutput, Bool.and_eq_true, beq_iff_eq, and_assoc]

/-- The part_000 validator is the main-file validator plus the length test. -/
theorem P0_isValidOutput_iff (f : List Nat) :
    P0.isValidOutput f = true ↔
      (f.length = 6 ∧ f.getD 0 0 = 0xAA ∧ f.getD 1 0 = 0xBB ∧ f.getD 2 0 = 0x03 ∧
       f.getD 3 0 = 0x11 ∧ byteSub (f.getD 5 0) (f.getD 4 0) = 0x16) := by
  simp [P0.isValidOutput, Bool.and_eq_true, beq_iff_eq, and_assoc]

theorem extractInput_eq (f : List Nat) :
    extractInput f =
      if (f.getD 0 0 = 0xAA ∧ f.getD 1 0 = 0xBB ∧ f.getD 2 0 = 0x03 ∧
          f.getD 3 0 = 0x11 ∧ byteSub (f.getD 5 0) (f.getD 4 0) = 0x16)
      then Except.ok (f.getD 4 0 + 1) else Except.error "invalid response" := by
  by_cases h : (f.getD 0 0 = 0xAA ∧ f.getD 1 0 = 0xBB ∧ f.getD 2 0 = 0x03 ∧
      f.getD 3 0 = 0x11 ∧ byteSub (f.getD 5 0) (f.getD 4 0) = 0x16)
  · rw [extractInput, if_pos ((isValidOutput_iff f).mpr h), if_pos h]
  · rw [extractInput, if_neg (fun hh => h ((isValidOutput_iff f).mp hh)), if_neg h]

theorem P0_ExtractInput_eq (f : List Nat) :
    P0.ExtractInput f =
      if (f.length = 6 ∧ f.getD 0 0 = 0xAA ∧ f.getD 1 0 = 0xBB ∧ f.getD 2 0 = 0x03 ∧
          f.getD 3 0 = 0x11 ∧ byteSub (f.getD 5 0) (f.getD 4 0) = 0x16)
      then Except.ok (f.getD 4 0 + 1) else Except.error "invalid response" := by
  by_cases h : (f.length = 6 ∧ f.getD 0 0 = 0xAA ∧ f.getD 1 0 = 0xBB ∧ f.getD 2 0 = 0x03 ∧
      f.getD 3 0 = 0x11 ∧ byteSub (f.getD 5 0) (f.getD 4 0) = 0x16)
  · rw [P0.ExtractInput, if_pos ((P0_isValidOutput_iff f).mpr h), if_pos h]
  · rw [P0.ExtractInput, if_neg (fun hh => h ((P0_isValidOutput_iff f).mp hh)), if_neg h]

end DecodeCharacterization

/-- C3 counterexample: a 7-byte frame whose first six bytes pass the marker
and checksum checks is accepted by `extractInput` (no length check in the
cited variant), so the claimed "accepts only at length 6" is false. -/
theorem C3_counterexample :
    extractInput [0xAA, 0xBB, 0x03, 0x11, 0x02, 0x18, 0x00] = Except.ok 3 ∧
    ([0xAA, 0xBB, 0x03, 0x11, 0x02, 0x18, 0x00] : List Nat).length ≠ 6 :=
  ⟨rfl, by decide⟩

/-- C3 (amended): the part_000 decoder `ExtractInput` accepts a frame iff
its length is 6, bytes 0-3 are `AA BB 03 11` and `byte5 - byte4` wraps to
`0x16`, returning `frame[4] + 1` on acceptance and the "invalid response"
error otherwise; the main-file `extractInput` performs the same checks
without the length test, so it also accepts longer frames with a valid
6-byte head. -/
theorem C3_decode (f : List Nat) :
    (P0.ExtractInput f =
      if (f.length = 6 ∧ f.getD 0 0 = 0xAA ∧ f.getD 1 0 = 0xBB ∧ f.getD 2 0 = 0x03 ∧
          f.getD 3 0 = 0x11 ∧ byteSub (f.getD 5 0) (f.getD 4 0) = 0x16)
      then Except.ok (f.getD 4 0 + 1) else Except.error "invalid response") ∧
    (extractInput f =
      if (f.getD 0 0 = 0xAA ∧ f.getD 1 0 = 0xBB ∧ f.getD 2 0 = 0x03 ∧
          f.getD 3 0 = 0x11 ∧ byteSub (f.getD 5 0) (f.getD 4 0) = 0x16)
      then Except.ok (f.getD 4 0 + 1) else Except.error "invalid response") :=
  ⟨P0_ExtractInput_eq f, extractInput_eq f⟩

/-- C4 (code bug): `SetLedTimeout` injects into the `GET_CURRENT_INPUT`
template, so the transmitted frame carries opcode byte `0x10`, not the
`0x03` of the LED-timeout command; and its guard (`input < 0 && input > 30`)
is unsatisfiable, so out-of-range values such as 31 are never rejected. -/
theorem C4_setLedTimeout_code_eval :
    SetLedTimeout 5 = Except.ok [0xAA, 0xBB, 0x03, 0x10, 0x05, 0xEE] ∧
    SetLedTimeout 31 = Except.ok [0xAA, 0xBB, 0x03, 0x10, 0x1F, 0xEE] ∧
    (∀ n : Int, SetLedTimeout n ≠ Except.error "invalid LED timeout value") ∧
    (∀ n : Int, ∀ l : List Nat, SetLedTimeout n = Except.ok l → l.getD 3 0 = 0x10) := by
  refine ⟨rfl, rfl, ?_, ?_⟩
  · intro n
    have hg : ¬ (n < 0 ∧ n > 30) := by omega
    rw [SetLedTimeout, if_neg hg]
    exact fun h => Except.noConfusion h
  · intro n l h
    have hg : ¬ (n < 0 ∧ n > 30) := by omega
    rw [SetLedTimeout, if_neg hg, injectInputToPayload_getCurrent] at h
    rw [← Except.ok.inj h]
    rfl

/-- C5 counterexample: encoding parameter 2 with the 4-byte status template
leaves byte 5 zero, so the checksum check fails and the decode errors out
instead of recovering 2. -/
theorem C5_counterexample :
    extractInput (injectInputToPayload OUTPUT 2) = Except.error "invalid response" ∧
    (Except.error "invalid response" : Except String Nat) ≠ Except.ok 2 :=
  ⟨rfl, fun h => Except.noConfusion h⟩

/-- C5 (amended): encoding with `injectInputToPayload` on the 4-byte
`OUTPUT` template leaves byte 5 zero, so decoding the encoded frame fails
for every parameter byte except `v = 0xEA` (where `0 - 0xEA` wraps to
`0x16`), and even there it returns `v + 1`, never `v`; the round-trip that
does hold is on the decoder alone: a status frame carrying `v` with the
correct checksum byte `(v + 0x16) % 256` decodes to `v + 1`. -/
theorem C5_roundtrip (v : Nat) (hv : v < 256) :
    (extractInput (injectInputToPayload OUTPUT v) =
      if v = 0xEA then Except.ok (v + 1) else Except.error "invalid response") ∧
    P0.ExtractInput [0xAA, 0xBB, 0x03, 0x11, v, (v + 0x16) % 256] = Except.ok (v + 1) := by
  constructor
  · by_cases h : v = 0xEA
    · subst h
      rfl
    · have henc : injectInputToPayload OUTPUT v = [0xAA, 0xBB, 0x03, 0x11, v, 0x00] := rfl
      rw [henc, extractInput_eq, if_neg h]
      refine if_neg fun hc => ?_
      have h16 : byteSub 0 v = 0x16 := hc.2.2.2.2
      simp only [byteSub, Nat.zero_mod, Nat.zero_add, Nat.mod_eq_of_lt hv] at h16
      omega
  · have hchk : byteSub ((v + 0x16) % 256) v = 0x16 := by
      simp only [byteSub]
      omega
    rw [P0_ExtractInput_eq, if_pos ⟨rfl, rfl, rfl, rfl, rfl, hchk⟩]
    rfl

/-- C5 witness: the amended round-trip statement at `v = 5`. -/
theorem C5_witness :
    (extractInput (injectInputToPayload OUTPUT 5) =
      if 5 = 0xEA then Except.ok (5 + 1) else Except.error "invalid response") ∧
    P0.ExtractInput [0xAA, 0xBB, 0x03, 0x11, 5, (5 + 0x16) % 256] = Except.ok (5 + 1) :=
  C5_roundtrip 5 (by decide)

/-- The channel state of `tesmartSwitch` as the read loop sees it
(`tesmart-commands.go:32-39`): `sw` has capacity 1, so its occupancy is a
`Bool` (the Pending Request Marker); `responses` (correlated replies) and
`Responses` (unsolicited observer) are queues of frames. -/
structure SwitchState where
  sw : Bool
  responses : List (List Nat)
  Responses : List (List Nat)
deriving DecidableEq

/-- One iteration of the dispatch `select` in `receiveLoop`
(`tesmart-commands.go:163-168`): a nonblocking receive on `sw` succeeds
exactly when the marker is set, in which case the frame goes to
`responses` and the marker is consumed; the `default` branch pushes the
frame to the observer channel `Responses`. -/
def dispatchFrame (st : SwitchState) (response : List Nat) : SwitchState :=
  if st.sw then { st with sw := false, responses := st.responses ++ [response] }
  else { st with Responses := st.Responses ++ [response] }

/-- C6: dispatch rule of the read loop — with the marker set, the frame is
appended to the waiter's channel and the marker is cleared, the observer
channel untouched; with no marker, the frame goes to the observer channel
and the waiter's channel is untouched. -/
theorem C6_dispatch_rule (st : SwitchState) (f : List Nat) :
    (st.sw = true →
      dispatchFrame st f = ⟨false, st.responses ++ [f], st.Responses⟩) ∧
    (st.sw = false →
      dispatchFrame st f = ⟨false, st.responses, st.Responses ++ [f]⟩) := by
  obtain ⟨sw, rs, os⟩ := st
  constructor
  · intro h
    simp only at h
    subst h
    simp [dispatchFrame]
  · intro h
    simp only at h
    subst h
    simp [dispatchFrame]

/-- C6 witness: a concrete dispatch with the marker set and one with it
clear. -/
theorem C6_witness :
    dispatchFrame ⟨true, [], []⟩ [0xAA, 0xBB, 0x03, 0x11, 0x02, 0x18] =
      ⟨false, [[0xAA, 0xBB, 0x03, 0x11, 0x02, 0x18]], []⟩ ∧
    dispatchFrame ⟨false, [], []⟩ [0xAA, 0xBB, 0x03, 0x11, 0x02, 0x18] =
      ⟨false, [], [[0xAA, 0xBB, 0x03, 0x11, 0x02, 0x18]]⟩ :=
  ⟨(C6_dispatch_rule ⟨true, [], []⟩ [0xAA, 0xBB, 0x03, 0x11, 0x02, 0x18]).1 rfl,
   (C6_dispatch_rule ⟨false, [], []⟩ [0xAA, 0xBB, 0x03, 0x11, 0x02, 0x18]).2 rfl⟩

/-- Observable events of one `send` call, in program order. -/
inductive SendEvent where
  | write (frame : List Nat)
  | setMarker
deriving DecidableEq

def SendEvent.isMarker : SendEvent → Bool
  | .setMarker => true
  | .write _ => false

def SendEvent.isWrite : SendEvent → Bool
  | .setMarker => false
  | .write _ => true

/-- Outcome of the socket `Write` call, the one external input of `send`. -/
inductive WriteResult where
  | ok (bytesSent : Nat)
  | err (msg : String)
deriving DecidableEq

inductive SendError where
  | socketError (msg : String)
  | sizeMismatch (sent : Nat)
deriving DecidableEq

/-- `send` (`tesmart-commands.go:128-146`) as a trace of its events plus its
return value, driven by the socket write's outcome: write first; on a write
error return it at once; otherwise `t.sw <- true` (set the marker), and only
then check `bytesSent != 6`. -/
def send (command : List Nat) (w : WriteResult) :
    List SendEvent × Except SendError Unit :=
  match w with
  | .err m => ([.write command], .error (.socketError m))
  | .ok n =>
    if n ≠ 6 then ([.write command, .setMarker], .error (.sizeMismatch n))
    else ([.write command, .setMarker], .ok ())

/-- Whether some marker-set event occurs strictly before the first write in
a trace. -/
def markerBeforeWrite (tr : List SendEvent) : Bool :=
  (tr.takeWhile fun e => ! e.isWrite).any SendEvent.isMarker

/-- C7 counterexample: a successful `send` of `MUTE_BUZZER` produces the
trace `[write, setMarker]` — the write precedes the marker, and no marker
is set before the write, contradicting the claim for this execution. -/
theorem C7_counterexample :
    send MUTE_BUZZER (.ok 6) = ([.write MUTE_BUZZER, .setMarker], .ok ()) ∧
    markerBeforeWrite (send MUTE_BUZZER (.ok 6)).1 = false := by
  constructor
  · rfl
  · rfl

/-- C7 (amended): in every execution of `send` the trace begins with the
write — the Pending Request Marker is set only after a successful write,
never before it — so a reply frame can arrive between the write and the
marker being set (and would then be treated as unsolicited). -/
theorem C7_marker_after_write (c : List Nat) (w : WriteResult) :
    (send c w).1.head? = some (.write c) ∧
    markerBeforeWrite (send c w).1 = false ∧
    ((send c w).1.any SendEvent.isMarker =
      match w with | .ok _ => true | .err _ => false) := by
  cases w with
  | err m => refine ⟨rfl, rfl, rfl⟩
  | ok n =>
    by_cases h : n ≠ 6
    · rw [send, if_pos h]
      exact ⟨rfl, rfl, rfl⟩
    · rw [send, if_neg h]
      exact ⟨rfl, rfl, rfl⟩

/-- A heap of Go byte-slice buffers, addressed by allocation index. -/
abbrev Heap := List (List Nat)

/-- `injectInputToPayload` at the allocation level: `make([]byte, 6)`
allocates a fresh buffer (a new heap cell), `copy` reads the template and
writes only the fresh buffer, `command[4] = input` writes the fresh buffer.
Returns the new heap and the fresh buffer's address. -/
def injectInputToPayloadAlloc (h : Heap) (payloadId : Nat) (input : Nat) :
    Heap × Nat :=
  (h ++ [(goCopy (makeBytes 6) (h.getD payloadId [])).set 4 input], h.length)

/-- C8: encoding never mutates its template — the fresh buffer is allocated
at a new address, every pre-existing buffer (in particular the shared
command templates) is unchanged, and the fresh buffer holds exactly the
frame `injectInputToPayload` computes from the template. -/
theorem C8_encode_fresh_buffer (h : Heap) (p v : Nat) :
    (injectInputToPayloadAlloc h p v).2 = h.length ∧
    (injectInputToPayloadAlloc h p v).1.getD h.length [] =
      injectInputToPayload (h.getD p []) v ∧
    (∀ i, i < h.length →
      (injectInputToPayloadAlloc h p v).1.getD i [] = h.getD i []) := by
  refine ⟨rfl, ?_, ?_⟩
  · rw [injectInputToPayloadAlloc, List.getD_eq_getElem?_getD,
      List.getElem?_append_right (Nat.le_refl h.length), Nat.sub_self]
    rfl
  · intro i hi
    rw [injectInputToPayloadAlloc, List.getD_eq_getElem?_getD,
      List.getElem?_append_left hi, ← List.getD_eq_getElem?_getD]

/-- C8 witness: encoding from a one-template heap leaves the `SWITCH_INPUT`
template unchanged at address 0. -/
theorem C8_witness :
    (injectInputToPayloadAlloc [SWITCH_INPUT] 0 7).1.getD 0 [] =
      ([SWITCH_INPUT] : Heap).getD 0 [] :=
  (C8_encode_fresh_buffer [SWITCH_INPUT] 0 7).2.2 0 (by decide)

/-- C9: the byte placed at index 4 of the transmitted frame is the Go
`byte(input)` conversion, i.e. `input mod 256` — for every `n : Int`, since
the (unsatisfiable) guards reject nothing; in particular `n = 257` yields
the same frame as `n = 1`. -/
theorem C9_byte_truncation :
    (∀ n : Int,
      SwitchInput n = Except.ok [0xAA, 0xBB, 0x03, 0x01, (n % 256).toNat, 0xEE] ∧
      SetLedTimeout n = Except.ok [0xAA, 0xBB, 0x03, 0x10, (n % 256).toNat, 0xEE]) ∧
    SwitchInput 257 = SwitchInput 1 := by
  constructor
  · intro n
    constructor
    · have hg : ¬ (n < 1 ∧ n > 16) := by omega
      rw [SwitchInput, if_neg hg, injectInputToPayload_switch]
      rfl
    · have hg : ¬ (n < 0 ∧ n > 30) := by omega
      rw [SetLedTimeout, if_neg hg, injectInputToPayload_getCurrent]
      rfl
  · rfl

/-- C10: when the write reports no error but a byte count other than 6,
`send` returns the size-mismatch error, yet the marker-set event is already
in the trace — the error return leaves a pending request outstanding. -/
theorem C10_short_write_leaves_marker (c : List Nat) (n : Nat) (h : n ≠ 6) :
    (send c (.ok n)).2 = Except.error (.sizeMismatch n) ∧
    (send c (.ok n)).1.any SendEvent.isMarker = true := by
  rw [send, if_pos h]
  exact ⟨rfl, rfl⟩

/-- C10 witness: a 3-byte short write of `MUTE_BUZZER`. -/
theorem C10_witness :
    (send MUTE_BUZZER (.ok 3)).2 = Except.error (.sizeMismatch 3) ∧
    (send MUTE_BUZZER (.ok 3)).1.any SendEvent.isMarker = true :=
  C10_short_write_leaves_marker MUTE_BUZZER 3 (by decide)

end Tesmart
